import Mathlib

/-!
Verification of the wasel session-lifecycle and dispatch core.

Shallow embedding of `src/services/baileys/SessionManager.js` and
`src/services/baileys/MessageService.js`.  Pure functions are translated
directly; the stateful session registry is explicit state passing over
`MState`; JavaScript functions that can throw are embedded with
`Except String`; the opaque transport socket is a record of behaviour
parameters (its per-attempt send outcomes, whether `end()` throws).
-/

namespace Wasel

/-! ## String helpers with JavaScript semantics

`String.prototype.includes(sub)` is substring containment; we define it
over character lists so it is kernel-computable. -/

/-- `startsWithL sub l` : `sub` is a prefix of `l`. -/
def startsWithL : List Char → List Char → Bool
  | [], _ => true
  | _ :: _, [] => false
  | a :: as, b :: bs => a = b && startsWithL as bs

/-- `subOfL sub l` : `sub` occurs as a contiguous substring of `l`
(JavaScript `l.includes(sub)`). -/
def subOfL (sub : List Char) : List Char → Bool
  | [] => startsWithL sub []
  | c :: rest => startsWithL sub (c :: rest) || subOfL sub rest

/-- JavaScript `s.includes(sub)`. -/
def containsSub (s sub : String) : Bool :=
  subOfL sub.toList s.toList

/-! ## MessageService.formatPhoneNumber (MessageService.js lines 223-239)

```js
formatPhoneNumber(phoneNumber) {
    if (phoneNumber.includes('@')) { return phoneNumber; }
    let cleaned = phoneNumber.replace(/[^\d+]/g, '');
    if (cleaned.startsWith('+')) { cleaned = cleaned.substring(1); }
    return cleaned + '@s.whatsapp.net';
}
```
The regex replace deletes every character that is neither a decimal digit
nor `+` (i.e. keeps digits and `+`); `startsWith('+')`/`substring(1)` is
`head? = '+'` / `tail` on the character list. -/
def formatPhoneNumber (phoneNumber : String) : String :=
  if phoneNumber.toList.contains '@' then phoneNumber
  else
    let cleaned := phoneNumber.toList.filter (fun c => c.isDigit || c = '+')
    let cleaned2 := if cleaned.head? = some '+' then cleaned.tail else cleaned
    String.mk cleaned2 ++ "@s.whatsapp.net"

/-- The spec's own wording of the normalization step, for comparison:
"stripping all non-digit/non-plus characters, dropping a leading plus, and
appending the fixed network suffix". -/
def dropOnePlus : List Char → List Char
  | '+' :: rest => rest
  | l => l

/-- The spec's normalization, assembled from its words (strip, drop one
leading plus, append suffix; canonical strings pass through). -/
def formatSpec (s : String) : String :=
  if s.toList.contains '@' then s
  else String.mk (dropOnePlus (s.toList.filter (fun c => c.isDigit || c = '+'))) ++ "@s.whatsapp.net"

/-! ## Reconnect backoff (SessionManager.js line 200)

```js
const retryDelay = Math.min(3000 * Math.pow(2, retryCount - 1), 10000);
```
`retryCount` is at least 1 when this line runs. -/
def retryDelay (retryCount : Nat) : Nat :=
  min (3000 * 2 ^ (retryCount - 1)) 10000

/-- C9: For consecutive non-fatal disconnects with reconnection permitted,
the backoff delay computed for attempt n+1 is at least the delay computed
for attempt n (base 3000ms doubling per attempt), and every computed delay
is capped at the 10000ms ceiling. -/
theorem retryDelay_monotone_capped :
    ∀ n : Nat, retryDelay n ≤ retryDelay (n + 1) ∧ retryDelay n ≤ 10000 := by
  intro n
  constructor
  · unfold retryDelay
    have h : 3000 * 2 ^ (n - 1) ≤ 3000 * 2 ^ (n + 1 - 1) := by
      apply Nat.mul_le_mul_left
      apply Nat.pow_le_pow_right (by omega)
      omega
    exact min_le_min h le_rfl
  · exact min_le_right _ _

/-- The code's `startsWith('+')`/`substring(1)` step agrees with the
spec's "drop a single leading plus" on every character list. -/
theorem headTail_eq_dropOnePlus (l : List Char) :
    (if l.head? = some '+' then l.tail else l) = dropOnePlus l := by
  cases l with
  | nil => simp [dropOnePlus]
  | cons c r =>
    by_cases hc : c = '+'
    · subst hc; simp [dropOnePlus]
    · have hd : dropOnePlus (c :: r) = c :: r := by
        unfold dropOnePlus
        split
        · rename_i rest heq
          injection heq with h1 h2
          exact absurd h1 hc
        · rfl
      rw [hd, if_neg (by simp [hc])]

/-- C8: formatPhoneNumber returns the input unchanged when it contains
'@'; otherwise it keeps only digits and '+', drops one leading '+', and
appends "@s.whatsapp.net" (agreeing with the spec's wording on every
input); in particular "+20 106-628-4516" maps to
"201066284516@s.whatsapp.net" and a canonical address maps to itself. -/
theorem formatPhoneNumber_spec :
    (∀ s : String, s.toList.contains '@' = true → formatPhoneNumber s = s) ∧
    (∀ s : String, formatPhoneNumber s = formatSpec s) ∧
    formatPhoneNumber "+20 106-628-4516" = "201066284516@s.whatsapp.net" ∧
    formatPhoneNumber "201066284516@s.whatsapp.net" = "201066284516@s.whatsapp.net" := by
  refine ⟨?_, ?_, by decide, by decide⟩
  · intro s h
    unfold formatPhoneNumber
    rw [if_pos h]
  · intro s
    unfold formatPhoneNumber formatSpec
    by_cases h : s.toList.contains '@' = true
    · rw [if_pos h, if_pos h]
    · rw [if_neg h, if_neg h]
      simp only [headTail_eq_dropOnePlus]

/-- Witness for C8 at concrete inputs: the passthrough clause applied to a
canonical address. -/
theorem formatPhoneNumber_spec_witness :
    formatPhoneNumber "201066284516@s.whatsapp.net" = "201066284516@s.whatsapp.net" :=
  formatPhoneNumber_spec.1 "201066284516@s.whatsapp.net" (by decide)

/-! ## The transport socket as a behaviour record

The socket produced by the opaque transport factory is modelled by its
observable behaviour at the call sites the dispatch layer uses:
`user` is `sock.user` (present iff the session is authenticated),
`sendText n` is the outcome of the n-th `session.sendMessage(jid, {text})`
attempt (either a message id or the error's string form
`innerError.toString()`), and `sendBtn` is the outcome of the single
`session.sendMessage(jid, buttonMessage)` call. -/
structure Session where
  user : Option String
  sendText : Nat → Except String Nat
  sendBtn : Except String Nat

/-- MessageService.js line 48: the corruption signature test
`errString.includes('Bad MAC') || errString.includes('Session Error')`. -/
def corruptionSig (e : String) : Bool :=
  containsSub e "Bad MAC" || containsSub e "Session Error"

/-- The JavaScript return values of `sendMessage`: the transport result on
success, `false` when the session is absent or not connected, `null` when
the outer catch swallowed an error. -/
inductive MsgVal where
  | result (r : Nat)
  | retFalse
  | retNull
deriving DecidableEq

/-! ## MessageService.sendMessage (MessageService.js lines 22-72)

The inner try/catch (lines 39-65): attempt the send; on error, if the
corruption signature matches, throw `CORRUPTED_SESSION: ...`; else if
`retryCount < 2`, wait 2000ms and recurse with `retryCount + 1`; else
rethrow the error.  The recursion is bounded by the guard
`retryCount < 2`; we express the remaining budget structurally as
`2 - retryCount` (for every natural `retryCount`, the guard holds iff
`2 - retryCount > 0`).  `sendGo` returns the inner result together with
the number of transport attempts performed and the list of waits taken
between attempts. -/
def sendGo (t : Nat → Except String Nat) : Nat → Nat → Except String Nat × Nat × List Nat
  | remaining, retryCount =>
    match t retryCount with
    | Except.ok r => (Except.ok r, 1, [])
    | Except.error e =>
      if corruptionSig e then
        (Except.error "CORRUPTED_SESSION: Please re-link WhatsApp", 1, [])
      else
        match remaining with
        | rem + 1 =>
          let rec' := sendGo t rem (retryCount + 1)
          (rec'.1, rec'.2.1 + 1, 2000 :: rec'.2.2)
        | 0 => (Except.error e, 1, [])

/-- The inner try/catch of `sendMessage` started at `retryCount`. -/
def sendInner (t : Nat → Except String Nat) (retryCount : Nat) :
    Except String Nat × Nat × List Nat :=
  sendGo t (2 - retryCount) retryCount

/-- `sendMessage(sessionId, phoneNumber, message, retryCount)`.  Returns
`false` when the session is absent or `session.user` is missing; otherwise
runs the inner send/retry logic on `formatPhoneNumber phoneNumber`.  The
result lives in `Except String MsgVal` because a JavaScript async method
can reject; the outer catch (lines 67-71) intercepts every thrown error
and returns `null` ("Return null instead of throwing to prevent crashing
the scheduler loop"), so every branch below produces `Except.ok`.  The
registry is fixed for the duration of the call, so the source's recursive
re-lookup of the session yields the same socket and the recursion is
equivalently carried out by `sendInner`.  Also returns the number of
transport attempts and the waits taken between attempts. -/
def sendMessage (reg : String → Option Session)
    (sessionId phoneNumber message : String) (retryCount : Nat) :
    Except String MsgVal × Nat × List Nat :=
  match reg sessionId with
  | none => (Except.ok MsgVal.retFalse, 0, [])
  | some s =>
    match s.user with
    | none => (Except.ok MsgVal.retFalse, 0, [])
    | some _ =>
      let _jid := formatPhoneNumber phoneNumber
      let _payload := message
      match sendInner s.sendText retryCount with
      | (Except.ok r, n, ds) => (Except.ok (MsgVal.result r), n, ds)
      | (Except.error _, n, ds) => (Except.ok MsgVal.retNull, n, ds)

/-- Unfolding `sendGo` when the attempt succeeds. -/
theorem sendGo_ok (t : Nat → Except String Nat) (rem rc r : Nat)
    (ht : t rc = Except.ok r) :
    sendGo t rem rc = (Except.ok r, 1, []) := by
  unfold sendGo
  rw [ht]

/-- Unfolding `sendGo` when the attempt fails with the corruption
signature: the `CORRUPTED_SESSION` error is thrown at once. -/
theorem sendGo_corrupt (t : Nat → Except String Nat) (rem rc : Nat) (e : String)
    (ht : t rc = Except.error e) (hc : corruptionSig e = true) :
    sendGo t rem rc = (Except.error "CORRUPTED_SESSION: Please re-link WhatsApp", 1, []) := by
  unfold sendGo
  rw [ht]
  simp [hc]

/-- Unfolding `sendGo` when the attempt fails transiently and retry
budget remains: wait 2000ms and retry. -/
theorem sendGo_retry (t : Nat → Except String Nat) (rem rc : Nat) (e : String)
    (ht : t rc = Except.error e) (hc : corruptionSig e = false) :
    sendGo t (rem + 1) rc =
      ((sendGo t rem (rc + 1)).1, (sendGo t rem (rc + 1)).2.1 + 1,
        2000 :: (sendGo t rem (rc + 1)).2.2) := by
  conv_lhs => rw [sendGo.eq_def]
  dsimp only
  rw [ht]
  simp [hc]

/-- Unfolding `sendGo` when the attempt fails transiently and the retry
budget is exhausted: the error is rethrown. -/
theorem sendGo_exhaust (t : Nat → Except String Nat) (rc : Nat) (e : String)
    (ht : t rc = Except.error e) (hc : corruptionSig e = false) :
    sendGo t 0 rc = (Except.error e, 1, []) := by
  unfold sendGo
  rw [ht]
  simp [hc]

/-- A transport whose every send fails with a transient error. -/
def tTransient : Nat → Except String Nat := fun _ => Except.error "Error: timeout"

/-- A transport whose every send fails with the corruption signature. -/
def tBadMac : Nat → Except String Nat := fun _ => Except.error "Error: Bad MAC"

/-- A connected session registry holding one session "s1" driven by the
given transport behaviour. -/
def regOne (t : Nat → Except String Nat) : String → Option Session :=
  fun sid => if sid = "s1" then some ⟨some "201066284516", t, Except.ok 0⟩ else none

/-- C2 counterexample: on a session whose sends always fail transiently,
`sendMessage(_, _, _, 0)` performs exactly 3 attempts with the fixed
2000ms delay between them and the inner retry loop ends holding the
underlying error, but the call does not propagate that error to the
caller: the outer catch swallows it and the caller receives null. -/
theorem sendMessage_swallows_transient_cex :
    sendMessage (regOne tTransient) "s1" "+20 106-628-4516" "hello" 0 =
      (Except.ok MsgVal.retNull, 3, [2000, 2000]) ∧
    sendInner tTransient 0 = (Except.error "Error: timeout", 3, [2000, 2000]) ∧
    (sendMessage (regOne tTransient) "s1" "+20 106-628-4516" "hello" 0).1 ≠
      Except.error "Error: timeout" := by
  refine ⟨rfl, rfl, ?_⟩
  intro h
  rw [show (sendMessage (regOne tTransient) "s1" "+20 106-628-4516" "hello" 0).1 =
      Except.ok MsgVal.retNull from rfl] at h
  exact Except.noConfusion h

/-- C2 amended: on a session whose transport send always fails with a
transient (non-corruption) error, `sendMessage(sessionId, recipient,
text, 0)` performs exactly 3 send attempts (initial + 2 retries, 2000ms
between attempts); the final error is rethrown inside the function but
the outer catch swallows it, so the caller receives null rather than the
underlying error. -/
theorem sendMessage_retry_budget (reg : String → Option Session)
    (sid pn msg u : String) (t : Nat → Except String Nat) (btn : Except String Nat)
    (e : Nat → String)
    (hreg : reg sid = some ⟨some u, t, btn⟩)
    (ht : ∀ n, t n = Except.error (e n))
    (hc : ∀ n, corruptionSig (e n) = false) :
    sendMessage reg sid pn msg 0 = (Except.ok MsgVal.retNull, 3, [2000, 2000]) ∧
    sendInner t 0 = (Except.error (e 2), 3, [2000, 2000]) := by
  have h2 : sendGo t 0 2 = (Except.error (e 2), 1, []) :=
    sendGo_exhaust t 2 (e 2) (ht 2) (hc 2)
  have h1 : sendGo t 1 1 = (Except.error (e 2), 2, [2000]) := by
    rw [sendGo_retry t 0 1 (e 1) (ht 1) (hc 1), h2]
  have h0 : sendGo t 2 0 = (Except.error (e 2), 3, [2000, 2000]) := by
    rw [sendGo_retry t 1 0 (e 0) (ht 0) (hc 0), h1]
  have hinner : sendInner t 0 = (Except.error (e 2), 3, [2000, 2000]) := h0
  refine ⟨?_, hinner⟩
  unfold sendMessage
  rw [hreg]
  simp only [hinner]

/-- Witness for C2's amended theorem at the concrete always-transient
transport. -/
theorem sendMessage_retry_budget_witness :
    sendMessage (regOne tTransient) "s1" "123" "hello" 0 =
      (Except.ok MsgVal.retNull, 3, [2000, 2000]) := by
  have hc : corruptionSig "Error: timeout" = false := by decide
  exact (sendMessage_retry_budget (regOne tTransient) "s1" "123" "hello"
    "201066284516" tTransient (Except.ok 0) (fun _ => "Error: timeout")
    rfl (fun _ => rfl) (fun _ => hc)).1

/-- C3 counterexample: on a session whose send fails with the corruption
signature, exactly one attempt is made and no retry happens, but the
`CORRUPTED_SESSION` error does not reach the caller: the outer catch of
`sendMessage` swallows it and the caller receives null, indistinguishable
from any other failure. -/
theorem sendMessage_corruption_not_raised_cex :
    sendMessage (regOne tBadMac) "s1" "+20 106-628-4516" "hello" 0 =
      (Except.ok MsgVal.retNull, 1, []) ∧
    sendInner tBadMac 0 =
      (Except.error "CORRUPTED_SESSION: Please re-link WhatsApp", 1, []) ∧
    (sendMessage (regOne tBadMac) "s1" "+20 106-628-4516" "hello" 0).1 ≠
      Except.error "CORRUPTED_SESSION: Please re-link WhatsApp" := by
  refine ⟨rfl, rfl, ?_⟩
  intro h
  rw [show (sendMessage (regOne tBadMac) "s1" "+20 106-628-4516" "hello" 0).1 =
      Except.ok MsgVal.retNull from rfl] at h
  exact Except.noConfusion h

/-- C3 amended: on a session whose send fails with an error matching the
corruption signature ('Bad MAC' or 'Session Error'), `sendMessage`
performs exactly one attempt and never enters the retry branch; the
terminal `CORRUPTED_SESSION: Please re-link WhatsApp` error is thrown
inside the function, but the outer catch swallows it and the caller
receives null rather than the raised error. -/
theorem sendMessage_corruption_short_circuit (reg : String → Option Session)
    (sid pn msg u e : String) (t : Nat → Except String Nat) (btn : Except String Nat)
    (hreg : reg sid = some ⟨some u, t, btn⟩)
    (ht : t 0 = Except.error e)
    (hc : corruptionSig e = true) :
    sendMessage reg sid pn msg 0 = (Except.ok MsgVal.retNull, 1, []) ∧
    sendInner t 0 =
      (Except.error "CORRUPTED_SESSION: Please re-link WhatsApp", 1, []) := by
  have hinner : sendInner t 0 =
      (Except.error "CORRUPTED_SESSION: Please re-link WhatsApp", 1, []) :=
    sendGo_corrupt t 2 0 e ht hc
  refine ⟨?_, hinner⟩
  unfold sendMessage
  rw [hreg]
  simp only [hinner]

/-- Witness for C3's amended theorem at the concrete Bad MAC transport. -/
theorem sendMessage_corruption_short_circuit_witness :
    sendMessage (regOne tBadMac) "s1" "123" "hello" 0 =
      (Except.ok MsgVal.retNull, 1, []) := by
  have hc : corruptionSig "Error: Bad MAC" = true := by decide
  exact (sendMessage_corruption_short_circuit (regOne tBadMac) "s1" "123" "hello"
    "201066284516" "Error: Bad MAC" tBadMac (Except.ok 0) rfl rfl hc).1

/-! ## MessageService.sendButtonMessage (MessageService.js lines 81-112)

Looks the session up (no `session.user` check), formats the button
payload, performs one transport send; the catch logs and rethrows every
error.  Result: the transport outcome (or a "Session not found" error),
together with the number of transport attempts performed. -/
def sendButtonMessage (reg : String → Option Session)
    (sessionId phoneNumber text : String) : Except String Nat × Nat :=
  match reg sessionId with
  | none => (Except.error ("Session " ++ sessionId ++ " not found"), 0)
  | some s =>
    let _jid := formatPhoneNumber phoneNumber
    let _payload := text
    (s.sendBtn, 1)

/-! ## The dispatch queue (MessageService.js lines 169-218)

`addToQueue` pushes `{sessionId, phoneNumber, message, type, options,
timestamp}` with an arbitrary `type` string; `processQueue` shifts the
head task, dispatches only `'text'` and `'button'` payloads, waits 1000ms
inside the same try block, and a catch swallows any processing error
before recursing on the rest of the queue. -/
structure QTask where
  sessionId : String
  phoneNumber : String
  message : String
  type : String
  timestamp : Nat
deriving DecidableEq

/-- One queue item's dispatch: number of transport attempts performed and
the error it threw, if any.  `'text'` tasks go through `sendMessage`,
which never throws (its outer catch returns null); `'button'` tasks go
through `sendButtonMessage`, which rethrows; any other type matches no
branch and does nothing. -/
def dispatchItem (reg : String → Option Session) (item : QTask) : Nat × Option String :=
  if item.type = "text" then
    ((sendMessage reg item.sessionId item.phoneNumber item.message 0).2.1, none)
  else if item.type = "button" then
    match sendButtonMessage reg item.sessionId item.phoneNumber item.message with
    | (Except.ok _, n) => (n, none)
    | (Except.error e, n) => (n, some e)
  else
    (0, none)

/-- Observable trace of the drain loop: a processed task (with its
transport attempt count and whether it threw) or a pacing wait. -/
inductive QEvent where
  | task (item : QTask) (attempts : Nat) (threw : Bool)
  | pause (ms : Nat)
deriving DecidableEq

/-- The drain loop.  The 1000ms pacing wait sits inside the try block
after the dispatch, so it runs only when the dispatch did not throw; the
catch logs the error and the loop recurses on the rest either way. -/
def processQueue (reg : String → Option Session) : List QTask → List QEvent
  | [] => []
  | item :: rest =>
    match dispatchItem reg item with
    | (n, none) => QEvent.task item n false :: QEvent.pause 1000 :: processQueue reg rest
    | (n, some _) => QEvent.task item n true :: processQueue reg rest

/-- The task projection of a trace event. -/
def taskOf : QEvent → Option QTask
  | QEvent.task i _ _ => some i
  | QEvent.pause _ => none

/-- Pacing-wait recognizer. -/
def isPause : QEvent → Bool
  | QEvent.pause _ => true
  | QEvent.task _ _ _ => false

/-- Per-item trace fragment: the processed task followed by the pacing
wait exactly when the dispatch did not throw. -/
def itemTrace (reg : String → Option Session) (item : QTask) : List QEvent :=
  match dispatchItem reg item with
  | (n, none) => [QEvent.task item n false, QEvent.pause 1000]
  | (n, some _) => [QEvent.task item n true]

/-- An empty registry: no session is registered. -/
def regNone : String → Option Session := fun _ => none

/-- A button task and a text task used in the queue counterexample. -/
def btnTask : QTask := ⟨"s1", "123", "hi", "button", 0⟩

/-- The text task enqueued after `btnTask`. -/
def txtTask : QTask := ⟨"s1", "456", "hi2", "text", 1⟩

/-- C6 counterexample: with no session registered, a 'button' task throws
("Session not found"); the pacing delay sits inside the same try block,
so it is skipped and the next task is popped immediately — the trace of
two enqueued tasks contains only one pacing wait, and none between the
two tasks. -/
theorem processQueue_pause_skipped_cex :
    processQueue regNone [btnTask, txtTask] =
      [QEvent.task btnTask 0 true, QEvent.task txtTask 0 false, QEvent.pause 1000] ∧
    (processQueue regNone [btnTask, txtTask]).countP isPause = 1 := by
  exact ⟨rfl, rfl⟩

/-- C6 amended: the drain loop processes tasks in FIFO enqueue order, and
waits the fixed 1000ms pacing delay after every task whose processing
does not throw; when processing throws (only 'button' dispatches can),
the delay is skipped — the trace is exactly the concatenation, in
enqueue order, of each task's fragment, the number of pacing waits equals
the number of non-throwing tasks, and the tasks appear in the trace in
enqueue order. -/
theorem processQueue_fifo_pacing (reg : String → Option Session) (q : List QTask) :
    processQueue reg q = (q.map (itemTrace reg)).flatten ∧
    (processQueue reg q).filterMap taskOf = q ∧
    (processQueue reg q).countP isPause =
      q.countP (fun i => (dispatchItem reg i).2.isNone) := by
  induction q with
  | nil => exact ⟨rfl, rfl, rfl⟩
  | cons item rest ih =>
    obtain ⟨ih1, ih2, ih3⟩ := ih
    match hd : dispatchItem reg item with
    | (n, none) =>
      refine ⟨?_, ?_, ?_⟩
      · simp [processQueue, hd, itemTrace, ih1]
      · simp [processQueue, hd, List.filterMap, taskOf, ih2]
      · simp [processQueue, hd, List.countP_cons, isPause, ih3]
    | (n, some e) =>
      refine ⟨?_, ?_, ?_⟩
      · simp [processQueue, hd, itemTrace, ih1]
      · simp [processQueue, hd, List.filterMap, taskOf, ih2]
      · simp [processQueue, hd, List.countP_cons, isPause, ih3]

/-- C10: a queued task whose type is neither 'text' nor 'button' is
removed from the queue with zero transport attempts and no thrown error:
the drain loop silently discards it (after the pacing wait, which does
run since nothing threw) and continues with the rest. -/
theorem processQueue_drops_unknown_type (reg : String → Option Session)
    (item : QTask) (rest : List QTask)
    (h1 : item.type ≠ "text") (h2 : item.type ≠ "button") :
    dispatchItem reg item = (0, none) ∧
    processQueue reg (item :: rest) =
      QEvent.task item 0 false :: QEvent.pause 1000 :: processQueue reg rest := by
  have hd : dispatchItem reg item = (0, none) := by
    unfold dispatchItem
    rw [if_neg h1, if_neg h2]
  exact ⟨hd, by simp [processQueue, hd]⟩

/-- Witness for C10 at a concrete 'media' task: it is dropped with no
delivery attempt and the loop moves on. -/
theorem processQueue_drops_unknown_type_witness :
    processQueue regNone [QTask.mk "s1" "123" "url" "media" 0] =
      [QEvent.task (QTask.mk "s1" "123" "url" "media" 0) 0 false, QEvent.pause 1000] := by
  have h := processQueue_drops_unknown_type regNone
    (QTask.mk "s1" "123" "url" "media" 0) [] (by decide) (by decide)
  rw [h.2]
  rfl

/-! ## SessionManager state (SessionManager.js)

`this.sessions` maps a sessionId to a live socket object; we give each
created socket a unique numeric id and keep all sockets ever created in
`allSocks`, so "two live sockets exist for one sessionId" is expressible
even for a socket that the registry no longer references.  `qrCodes` is
the QR cache, `health` the Health Monitor's per-session event logs
(`NetworkOptimizer`), `authDirs` the on-disk credential directories
(the Bool records whether deleting that directory throws), and
`endThrows` on a socket records whether its `end()` call throws. -/
structure SockRec where
  id : Nat
  sid : String
  closed : Bool
  user : Option String
  endThrows : Bool
deriving DecidableEq

/-- Health-event kinds of the Connection Health Monitor. -/
inductive HKind where
  | failure
  | reconnect
  | fatal_error
deriving DecidableEq

/-- One health-log entry: a kind with a timestamp. -/
structure HEvent where
  kind : HKind
  time : Nat
deriving DecidableEq

/-- The SessionManager's in-memory state plus the modelled external
resources (health logs, credential directories, every socket ever
created). -/
structure MState where
  registry : List (String × Nat)
  qrCodes : List (String × String)
  health : List (String × List HEvent)
  authDirs : List (String × Bool)
  allSocks : List SockRec
  nextId : Nat
deriving DecidableEq

/-- First-match association-list lookup (JavaScript `Map.get`). -/
def lookupA {α : Type} (k : String) : List (String × α) → Option α
  | [] => none
  | (k2, v) :: rest => if k2 = k then some v else lookupA k rest

/-- `Map.delete`: drop every entry for the key. -/
def eraseKey {α : Type} (k : String) (l : List (String × α)) : List (String × α) :=
  l.filter (fun p => !(p.1 = k : Bool))

/-- `Map.set`: bind the key, replacing any previous binding. -/
def setAssoc {α : Type} (k : String) (v : α) (l : List (String × α)) : List (String × α) :=
  (k, v) :: eraseKey k l

/-- The socket currently registered for `sid`, if any. -/
def sockFor (st : MState) (sid : String) : Option SockRec :=
  match lookupA sid st.registry with
  | none => none
  | some i => st.allSocks.find? (fun s => s.id = i)

/-- SessionManager.isConnected (lines 290-293): the session exists and
`session.user` is truthy. -/
def isConnected (st : MState) (sid : String) : Bool :=
  match sockFor st sid with
  | some s => s.user.isSome
  | none => false

/-- Mark the socket with id `i` closed (a successful `sock.end()`). -/
def closeSock (i : Nat) (socks : List SockRec) : List SockRec :=
  socks.map (fun s => if s.id = i then { s with closed := true } else s)

/-! ## SessionManager.removeSession (lines 315-341)

```js
async removeSession(sessionId) {
    try {
        if (this.sessions.has(sessionId)) {
            const sock = this.sessions.get(sessionId);
            sock.end(undefined);
            this.sessions.delete(sessionId);
        }
        if (this.qrCodes.has(sessionId)) { this.qrCodes.delete(sessionId); }
        networkOptimizer.cleanup(sessionId);
        const sessionPath = path.join(this.authDir, sessionId);
        if (fs.existsSync(sessionPath)) {
            await new Promise(resolve => setTimeout(resolve, 1000));
            fs.rmSync(sessionPath, { recursive: true, force: true });
        }
    } catch (error) { console.error(...); }
}
```
All sub-steps share the single try/catch; a throw carries the state as it
stood at the throw point to the catch, which swallows it.
`networkOptimizer.cleanup` is modelled from the spec (§4.2 "cleanup(id)
discards the log") because NetworkOptimizer.js is not among the sources.
`removeSessionStep2` is the tail of the try block (QR-cache delete,
health cleanup, credential-directory delete), reached only when the
socket-closing step did not throw; the QR and health deletes never throw,
the directory delete throws when its Bool flag is set. -/
def removeSessionStep2 (st : MState) (sid : String) : Except MState MState :=
  match lookupA sid st.authDirs with
  | none =>
    Except.ok { st with qrCodes := eraseKey sid st.qrCodes,
                        health := eraseKey sid st.health }
  | some rmThrows =>
    if rmThrows then
      Except.error { st with qrCodes := eraseKey sid st.qrCodes,
                             health := eraseKey sid st.health }
    else
      Except.ok { st with qrCodes := eraseKey sid st.qrCodes,
                          health := eraseKey sid st.health,
                          authDirs := eraseKey sid st.authDirs }

/-- The whole try block of `removeSession`: close-and-deregister the
socket if present (a throwing `end()` aborts everything), then the
remaining sub-steps. -/
def removeSessionTry (st : MState) (sid : String) : Except MState MState :=
  match lookupA sid st.registry with
  | none => removeSessionStep2 st sid
  | some i =>
    match st.allSocks.find? (fun s => s.id = i) with
    | none => removeSessionStep2 { st with registry := eraseKey sid st.registry } sid
    | some sock =>
      if sock.endThrows then Except.error st
      else removeSessionStep2
        { st with allSocks := closeSock i st.allSocks,
                  registry := eraseKey sid st.registry } sid

/-- The catch of `removeSession`: any thrown error is logged and
swallowed, leaving the state as it stood when the throw happened. -/
def settle : Except MState MState → MState
  | Except.ok st => st
  | Except.error st => st

/-- SessionManager.removeSession. -/
def removeSession (st : MState) (sid : String) : MState :=
  settle (removeSessionTry st sid)

/-- Health-log append (`recordEvent`), modelled from the spec (§4.2
"recordEvent(id, kind) appends with a timestamp"); creates the log if the
session is not being monitored yet. -/
def recordEvent (st : MState) (sid : String) (k : HKind) (t : Nat) : MState :=
  { st with health :=
      match lookupA sid st.health with
      | some log => setAssoc sid (log ++ [HEvent.mk k t]) st.health
      | none => setAssoc sid [HEvent.mk k t] st.health }

/-- `startMonitoring`, modelled from the spec (§4.2 "startMonitoring(id)
initializes the log", "created on first monitoring start"): creates an
empty log if none exists. -/
def startMonitoring (st : MState) (sid : String) : MState :=
  { st with health :=
      match lookupA sid st.health with
      | some _ => st.health
      | none => setAssoc sid [] st.health }

/-- `fs.mkdirSync(sessionPath, {recursive:true})` if absent. -/
def ensureDir (st : MState) (sid : String) : MState :=
  { st with authDirs :=
      match lookupA sid st.authDirs with
      | some _ => st.authDirs
      | none => setAssoc sid false st.authDirs }

/-- The modelled recent-failure window of the health policy. -/
def recentWindow : Nat := 60000

/-- The modelled failure-count threshold of the health policy. -/
def failureThreshold : Nat := 5

/-- Modelled from the spec: `NetworkOptimizer.shouldAttemptConnection`
(the Connection Health Monitor) is not among the sources; §4.2 specifies
"deny if failures within a recent window exceed a threshold, or if a
fatal_error was ever recorded", with the contract "never recommend
reconnecting a session that has recorded a fatal_error". -/
def shouldAttemptConnection (log : List HEvent) (now : Nat) : Bool :=
  !(log.any fun e => e.kind = HKind.fatal_error) &&
  (log.countP (fun e => (e.kind = HKind.failure : Bool) && (now - e.time ≤ recentWindow : Bool))
    < failureThreshold)

/-- SessionManager.handleSessionCorruption (lines 25-36): record a
`fatal_error` health event, then run the standard removal. -/
def handleSessionCorruption (st : MState) (sid : String) (t : Nat) : MState :=
  removeSession (recordEvent st sid HKind.fatal_error t) sid

/-! ## SessionManager.createSession (lines 45-271), synchronous path

The call: fast-path return when the session exists and is connected;
`removeSession` first when `isNew` is set and the session is not
connected; create the credential directory; load auth state; fetch the
protocol version; start health monitoring; create the socket (fresh,
unauthenticated, open) and install its event handlers; store it in the
registry, replacing any previous entry; return it.  Auth-state loading
and version fetch do not change the modelled state.  The new socket is
returned by its fresh id. -/
def createSession (st : MState) (sid : String) (isNew : Bool) : MState × Option Nat :=
  if (lookupA sid st.registry).isSome && isConnected st sid then
    (st, lookupA sid st.registry)
  else
    let st1 := if isNew && !(isConnected st sid) then removeSession st sid else st
    let st2 := ensureDir st1 sid
    let st3 := startMonitoring st2 sid
    let newSock : SockRec := ⟨st3.nextId, sid, false, none, false⟩
    let st4 := { st3 with allSocks := st3.allSocks ++ [newSock],
                          registry := setAssoc sid st3.nextId st3.registry,
                          nextId := st3.nextId + 1 }
    (st4, some newSock.id)

/-- Number of live (never-closed) sockets ever created for `sid`. -/
def liveFor (st : MState) (sid : String) : Nat :=
  st.allSocks.countP (fun s => (s.sid = sid : Bool) && !s.closed)

/-- The state at process start: empty registry, caches, logs, disk. -/
def emptySt : MState := ⟨[], [], [], [], [], 0⟩

/-! ## Association-list lemmas -/

/-- Looking a key up after erasing it yields nothing. -/
theorem lookupA_eraseKey {α : Type} (k : String) (l : List (String × α)) :
    lookupA k (eraseKey k l) = none := by
  induction l with
  | nil => rfl
  | cons p rest ih =>
    by_cases hp : p.1 = k
    · simpa [eraseKey, List.filter, hp] using ih
    · simpa [eraseKey, List.filter, hp, lookupA] using ih

/-- Looking a key up right after setting it yields the new value. -/
theorem lookupA_setAssoc {α : Type} (k : String) (v : α) (l : List (String × α)) :
    lookupA k (setAssoc k v l) = some v := by
  simp [setAssoc, lookupA]

/-- `removeSessionStep2` touches only the QR cache, the health logs and
the credential directories: registry, sockets and the id counter pass
through unchanged (whether or not the directory delete throws), and the
health log for `sid` is always erased before any throw. -/
theorem settle_removeSessionStep2 (st : MState) (sid : String) :
    (settle (removeSessionStep2 st sid)).allSocks = st.allSocks ∧
    (settle (removeSessionStep2 st sid)).registry = st.registry ∧
    (settle (removeSessionStep2 st sid)).nextId = st.nextId ∧
    (settle (removeSessionStep2 st sid)).qrCodes = eraseKey sid st.qrCodes ∧
    (settle (removeSessionStep2 st sid)).health = eraseKey sid st.health := by
  unfold removeSessionStep2
  cases hl : lookupA sid st.authDirs with
  | none => exact ⟨rfl, rfl, rfl, rfl, rfl⟩
  | some b =>
    cases b
    · exact ⟨rfl, rfl, rfl, rfl, rfl⟩
    · exact ⟨rfl, rfl, rfl, rfl, rfl⟩

/-! ## C1: at most one live socket per sessionId -/

/-- C1 counterexample: starting from the empty state, one `createSession`
leaves a live, not-yet-connected socket for "A"; a second `createSession`
with `isNew` unset replaces the registry entry with a fresh socket
without closing the previous one, so two live sockets for "A" exist. -/
theorem createSession_two_live_sockets_cex :
    isConnected (createSession emptySt "A" false).1 "A" = false ∧
    liveFor (createSession emptySt "A" false).1 "A" = 1 ∧
    liveFor (createSession (createSession emptySt "A" false).1 "A" false).1 "A" = 2 := by
  exact ⟨rfl, rfl, rfl⟩

/-- If every live socket for `sid` carries the registered id and socket
ids are unique, there is at most one live socket for `sid` in the list. -/
theorem countP_le_one_of_same_id (l : List SockRec) (p : SockRec → Bool) (k : Nat)
    (hp : ∀ s ∈ l, p s = true → s.id = k)
    (hn : (l.map SockRec.id).Nodup) :
    l.countP p ≤ 1 := by
  induction l with
  | nil => simp
  | cons s rest ih =>
    rw [List.countP_cons]
    have hn2 : (∀ x ∈ rest, ¬x.id = s.id) ∧ (rest.map SockRec.id).Nodup := by
      simpa using hn
    by_cases hs : p s = true
    · have hid : s.id = k := hp s (by simp) hs
      have hrest : rest.countP p = 0 := by
        rw [List.countP_eq_zero]
        intro s2 hs2 hps2
        have hid2 : s2.id = k := hp s2 (by simp [hs2]) hps2
        exact hn2.1 s2 hs2 (by rw [hid2, ← hid])
      simp [hrest, hs]
    · have hz : (if p s then 1 else 0) = 0 := by simp [hs]
      rw [hz, Nat.add_zero]
      exact ih (fun s2 h2 hp2 => hp s2 (by simp [h2]) hp2) hn2.2

/-- The invariant under which `createSession` preserves single-liveness:
every live socket for `sid` is the registered one, socket ids are unique,
ids are below the allocation counter, and the registered socket's
`end()` does not throw. -/
def sidLiveInv (st : MState) (sid : String) : Prop :=
  (∀ s ∈ st.allSocks, s.sid = sid → s.closed = false →
    lookupA sid st.registry = some s.id) ∧
  (st.allSocks.map SockRec.id).Nodup ∧
  (∀ s ∈ st.allSocks, s.id < st.nextId) ∧
  (∀ i, lookupA sid st.registry = some i →
    ∀ s ∈ st.allSocks, s.id = i → s.endThrows = false)

/-- Under the first invariant clause alone, `liveFor` is bounded by the
uniqueness of ids. -/
theorem liveFor_le_one (st : MState) (sid : String)
    (h1 : ∀ s ∈ st.allSocks, s.sid = sid → s.closed = false →
      lookupA sid st.registry = some s.id)
    (h2 : (st.allSocks.map SockRec.id).Nodup) :
    liveFor st sid ≤ 1 := by
  unfold liveFor
  cases hl : lookupA sid st.registry with
  | none =>
    have : st.allSocks.countP (fun s => (s.sid = sid : Bool) && !s.closed) = 0 := by
      rw [List.countP_eq_zero]
      intro s hs hps
      simp only [Bool.and_eq_true, decide_eq_true_eq, Bool.not_eq_true'] at hps
      have := h1 s hs hps.1 hps.2
      rw [hl] at this
      exact Option.noConfusion this
    omega
  | some i =>
    apply countP_le_one_of_same_id _ _ i _ h2
    intro s hs hps
    simp only [Bool.and_eq_true, decide_eq_true_eq, Bool.not_eq_true'] at hps
    have := h1 s hs hps.1 hps.2
    rw [hl] at this
    exact (Option.some.inj this).symm

/-- After `removeSession`, no live socket for `sid` remains, provided
every live socket for `sid` was the registered one and the registered
socket's `end()` does not throw. -/
theorem removeSession_no_live (st : MState) (sid : String)
    (h1 : ∀ s ∈ st.allSocks, s.sid = sid → s.closed = false →
      lookupA sid st.registry = some s.id)
    (h4 : ∀ i, lookupA sid st.registry = some i →
      ∀ s ∈ st.allSocks, s.id = i → s.endThrows = false) :
    liveFor (removeSession st sid) sid = 0 := by
  unfold removeSession removeSessionTry
  cases hl : lookupA sid st.registry with
  | none =>
    dsimp only
    unfold liveFor
    rw [(settle_removeSessionStep2 st sid).1, List.countP_eq_zero]
    intro s hs hps
    simp only [Bool.and_eq_true, decide_eq_true_eq, Bool.not_eq_true'] at hps
    have := h1 s hs hps.1 hps.2
    rw [hl] at this
    exact Option.noConfusion this
  | some i =>
    dsimp only
    cases hf : st.allSocks.find? (fun s => s.id = i) with
    | none =>
      dsimp only
      unfold liveFor
      rw [(settle_removeSessionStep2 _ sid).1, List.countP_eq_zero]
      intro s hs hps
      simp only [Bool.and_eq_true, decide_eq_true_eq, Bool.not_eq_true'] at hps
      have hid : lookupA sid st.registry = some s.id := h1 s hs hps.1 hps.2
      rw [hl] at hid
      have hsid : s.id = i := (Option.some.inj hid).symm
      have := List.find?_eq_none.mp hf s hs
      simp [hsid] at this
    | some sock =>
      dsimp only
      have hmem : sock ∈ st.allSocks := List.mem_of_find?_eq_some hf
      have hend : sock.endThrows = false := by
        apply h4 i hl sock hmem
        have := List.find?_some hf
        simpa using this
      rw [hend]
      simp only [Bool.false_eq_true, if_false]
      unfold liveFor
      rw [(settle_removeSessionStep2 _ sid).1, List.countP_eq_zero]
      intro s2 hs2 hps2
      simp only [Bool.and_eq_true, decide_eq_true_eq, Bool.not_eq_true'] at hps2
      simp only [closeSock, List.mem_map] at hs2
      obtain ⟨s0, hs0, heq⟩ := hs2
      by_cases hid0 : s0.id = i
      · rw [if_pos hid0] at heq
        rw [← heq] at hps2
        exact absurd hps2.2 (by simp)
      · rw [if_neg hid0] at heq
        rw [← heq] at hps2
        have := h1 s0 hs0 hps2.1 hps2.2
        rw [hl] at this
        exact hid0 (Option.some.inj this).symm

/-- C1 amended: `createSession` on a connected session returns the
existing handle and creates no socket; with `isNew` set on a
not-connected session it first runs `removeSession`, which closes the
previously registered socket, so at most one live socket for the id
remains afterwards.  (Without `isNew`, the counterexample shows the
replaced socket is left unclosed and two live sockets can exist.) -/
theorem createSession_isNew_single_live (st : MState) (sid : String)
    (h : sidLiveInv st sid) :
    liveFor (createSession st sid true).1 sid ≤ 1 := by
  obtain ⟨h1, h2, _h3, h4⟩ := h
  unfold createSession
  by_cases hc : ((lookupA sid st.registry).isSome && isConnected st sid) = true
  · rw [if_pos hc]
    exact liveFor_le_one st sid h1 h2
  · rw [if_neg hc]
    have hcf : isConnected st sid = false := by
      cases hi : isConnected st sid with
      | false => rfl
      | true =>
        exfalso
        apply hc
        have hsome : (lookupA sid st.registry).isSome = true := by
          unfold isConnected sockFor at hi
          cases hl : lookupA sid st.registry with
          | none => rw [hl] at hi; exact absurd hi (by simp)
          | some j => simp
        rw [hsome, hi]
        rfl
    rw [hcf]
    simp only [Bool.not_false, Bool.and_true, if_true]
    unfold liveFor
    simp only [List.countP_append]
    have hz : liveFor (removeSession st sid) sid = 0 :=
      removeSession_no_live st sid h1 h4
    unfold liveFor at hz
    have hsA : (startMonitoring (ensureDir (removeSession st sid) sid) sid).allSocks =
        (removeSession st sid).allSocks := rfl
    rw [hsA, hz, List.countP_cons]
    simp only [List.countP_nil, Nat.zero_add]
    split <;> omega

/-- Witness for C1's amended theorem: from the empty state (where the
invariant holds trivially), a fresh `createSession` with `isNew` leaves
exactly at most one live socket. -/
theorem createSession_isNew_single_live_witness :
    sidLiveInv emptySt "A" ∧ liveFor (createSession emptySt "A" true).1 "A" ≤ 1 := by
  have hinv : sidLiveInv emptySt "A" := by
    refine ⟨?_, ?_, ?_, ?_⟩ <;> simp [emptySt, lookupA]
  exact ⟨hinv, createSession_isNew_single_live emptySt "A" hinv⟩

/-! ## C7: idempotent create on a connected session -/

/-- C7: when the session is connected, `createSession` returns the
registered handle unchanged, with the whole state untouched — in
particular no new socket is created and the QR cache is untouched, so no
second QR event can be issued. -/
theorem createSession_idempotent_when_connected (st : MState) (sid : String) (b : Bool)
    (h : isConnected st sid = true) :
    createSession st sid b = (st, lookupA sid st.registry) ∧
    (createSession st sid b).1.qrCodes = st.qrCodes ∧
    (createSession st sid b).1.allSocks = st.allSocks := by
  have hsome : (lookupA sid st.registry).isSome = true := by
    unfold isConnected sockFor at h
    cases hl : lookupA sid st.registry with
    | none => rw [hl] at h; exact absurd h (by simp)
    | some j => simp
  have hmain : createSession st sid b = (st, lookupA sid st.registry) := by
    unfold createSession
    rw [if_pos (by rw [hsome, h]; rfl)]
  exact ⟨hmain, by rw [hmain], by rw [hmain]⟩

/-- A state holding one connected session "A". -/
def stConn : MState :=
  ⟨[("A", 0)], [], [("A", [])], [("A", false)],
   [⟨0, "A", false, some "201066284516", false⟩], 1⟩

/-- Witness for C7 at the concrete connected state: the second create
returns the same handle and changes nothing. -/
theorem createSession_idempotent_when_connected_witness :
    createSession stConn "A" false = (stConn, some 0) :=
  (createSession_idempotent_when_connected stConn "A" false rfl).1

/-! ## C4: removeSession sub-steps -/

/-- A state holding one not-connected session "A" whose socket's `end()`
throws, with a cached QR image, a health log and a credential dir. -/
def stEndThrows : MState :=
  ⟨[("A", 0)], [("A", "qr-image")], [("A", [])], [("A", false)],
   [⟨0, "A", false, none, true⟩], 1⟩

/-- C4 counterexample: when the socket-close sub-step throws, the shared
try/catch aborts `removeSession` entirely — the registry entry, the QR
cache entry, the health record and the credential directory all survive,
so the remaining sub-steps did not run. -/
theorem removeSession_skips_steps_cex :
    removeSession stEndThrows "A" = stEndThrows ∧
    lookupA "A" (removeSession stEndThrows "A").registry = some 0 ∧
    lookupA "A" (removeSession stEndThrows "A").qrCodes = some "qr-image" ∧
    lookupA "A" (removeSession stEndThrows "A").health = some [] ∧
    lookupA "A" (removeSession stEndThrows "A").authDirs = some false := by
  exact ⟨rfl, rfl, rfl, rfl, rfl⟩

/-- C4 amended: all of `removeSession`'s sub-steps run — the socket is
closed and the registry, QR-cache, health and credential-directory
entries are all removed — provided no earlier sub-step throws (here:
the registered socket's `end()` does not throw and the directory delete
does not throw).  Because the sub-steps share a single try/catch, a
throwing sub-step skips the remaining ones (see the counterexample);
the error is logged and never propagated to the caller. -/
theorem removeSession_total_no_throw (st : MState) (sid : String)
    (hE : ∀ i, lookupA sid st.registry = some i →
      ∀ s ∈ st.allSocks, s.id = i → s.endThrows = false)
    (hR : lookupA sid st.authDirs ≠ some true) :
    lookupA sid (removeSession st sid).registry = none ∧
    lookupA sid (removeSession st sid).qrCodes = none ∧
    lookupA sid (removeSession st sid).health = none ∧
    lookupA sid (removeSession st sid).authDirs = none ∧
    (∀ i, lookupA sid st.registry = some i →
      ∀ s ∈ (removeSession st sid).allSocks, s.id = i → s.closed = true) := by
  have hok : ∀ st2 : MState, lookupA sid st2.authDirs = lookupA sid st.authDirs →
      removeSessionStep2 st2 sid =
        Except.ok { st2 with qrCodes := eraseKey sid st2.qrCodes,
                             health := eraseKey sid st2.health,
                             authDirs := eraseKey sid st2.authDirs } ∨
      removeSessionStep2 st2 sid =
        Except.ok { st2 with qrCodes := eraseKey sid st2.qrCodes,
                             health := eraseKey sid st2.health } ∧
        lookupA sid st2.authDirs = none := by
    intro st2 hsame
    unfold removeSessionStep2
    cases ha : lookupA sid st2.authDirs with
    | none => exact Or.inr ⟨rfl, rfl⟩
    | some b =>
      cases b with
      | false => exact Or.inl rfl
      | true => exact absurd (hsame ▸ ha) hR
  unfold removeSession removeSessionTry
  cases hl : lookupA sid st.registry with
  | none =>
    dsimp only
    have hvac : ∀ (l : List SockRec) (i : Nat), (none : Option Nat) = some i →
        ∀ s ∈ l, s.id = i → s.closed = true := by
      intro l i hi
      exact Option.noConfusion hi
    rcases hok st rfl with h | ⟨h, hnone⟩
    · rw [h]
      exact ⟨hl, lookupA_eraseKey sid st.qrCodes, lookupA_eraseKey sid st.health,
        lookupA_eraseKey sid st.authDirs, hvac _⟩
    · rw [h]
      exact ⟨hl, lookupA_eraseKey sid st.qrCodes, lookupA_eraseKey sid st.health,
        hnone, hvac _⟩
  | some i =>
    dsimp only
    cases hf : st.allSocks.find? (fun s => s.id = i) with
    | none =>
      dsimp only
      have hvac : ∀ i2, (some i : Option Nat) = some i2 →
          ∀ s ∈ st.allSocks, s.id = i2 → s.closed = true := by
        intro i2 hi2 s hs hsid
        have hii : i2 = i := (Option.some.inj hi2).symm
        subst hii
        have := List.find?_eq_none.mp hf s hs
        simp [hsid] at this
      have hstep := hok { st with registry := eraseKey sid st.registry } rfl
      rcases hstep with h | ⟨h, hnone⟩
      · rw [h]
        exact ⟨lookupA_eraseKey sid st.registry, lookupA_eraseKey sid st.qrCodes,
          lookupA_eraseKey sid st.health, lookupA_eraseKey sid st.authDirs, hvac⟩
      · rw [h]
        exact ⟨lookupA_eraseKey sid st.registry, lookupA_eraseKey sid st.qrCodes,
          lookupA_eraseKey sid st.health, hnone, hvac⟩
    | some sock =>
      dsimp only
      have hmem : sock ∈ st.allSocks := List.mem_of_find?_eq_some hf
      have hend : sock.endThrows = false :=
        hE i hl sock hmem (by simpa using List.find?_some hf)
      rw [hend]
      simp only [Bool.false_eq_true, if_false]
      have hclosed : ∀ i2, (some i : Option Nat) = some i2 →
          ∀ s ∈ closeSock i st.allSocks, s.id = i2 → s.closed = true := by
        intro i2 hi2 s hs hsid
        have hi2i : i2 = i := (Option.some.inj hi2).symm
        subst hi2i
        simp only [closeSock, List.mem_map] at hs
        obtain ⟨s0, _hs0, heq⟩ := hs
        by_cases hid0 : s0.id = i2
        · rw [if_pos hid0] at heq
          rw [← heq]
        · rw [if_neg hid0] at heq
          rw [← heq] at hsid
          exact absurd hsid hid0
      have hstep := hok { st with allSocks := closeSock i st.allSocks, registry := eraseKey sid st.registry } rfl
      rcases hstep with h | ⟨h, hnone⟩
      · rw [h]
        exact ⟨lookupA_eraseKey sid st.registry, lookupA_eraseKey sid st.qrCodes,
          lookupA_eraseKey sid st.health, lookupA_eraseKey sid st.authDirs, hclosed⟩
      · rw [h]
        exact ⟨lookupA_eraseKey sid st.registry, lookupA_eraseKey sid st.qrCodes,
          lookupA_eraseKey sid st.health, hnone, hclosed⟩

/-- Witness for C4's amended theorem: with a non-throwing socket close
and directory delete, every sub-step runs and every entry is gone. -/
theorem removeSession_total_no_throw_witness :
    lookupA "A" (removeSession stConn "A").registry = none ∧
    lookupA "A" (removeSession stConn "A").qrCodes = none ∧
    lookupA "A" (removeSession stConn "A").health = none ∧
    lookupA "A" (removeSession stConn "A").authDirs = none := by
  have h := removeSession_total_no_throw stConn "A"
    (by intro i hi s hs hsid
        simp [stConn, lookupA] at hi
        simp [stConn] at hs
        subst hi hs
        rfl)
    (by simp [stConn, lookupA])
  exact ⟨h.1, h.2.1, h.2.2.1, h.2.2.2.1⟩

/-! ## C5: a recorded fatal_error is terminal -/

/-- A log containing a `fatal_error` event makes the policy deny. -/
theorem shouldAttempt_false_of_fatal (l : List HEvent) (now : Nat)
    (h : ∃ e ∈ l, e.kind = HKind.fatal_error) :
    shouldAttemptConnection l now = false := by
  obtain ⟨e, hm, hk⟩ := h
  unfold shouldAttemptConnection
  have ha : l.any (fun e => (e.kind = HKind.fatal_error : Bool)) = true :=
    List.any_eq_true.2 ⟨e, hm, by simp [hk]⟩
  rw [ha]
  rfl

/-- After `recordEvent st sid k t`, sid's health log exists and ends with
the recorded event. -/
theorem recordEvent_health (st : MState) (sid : String) (k : HKind) (t : Nat) :
    ∃ l, lookupA sid (recordEvent st sid k t).health = some l ∧ HEvent.mk k t ∈ l := by
  unfold recordEvent
  cases hl : lookupA sid st.health with
  | none => exact ⟨[HEvent.mk k t], lookupA_setAssoc sid _ _, by simp⟩
  | some log => exact ⟨log ++ [HEvent.mk k t], lookupA_setAssoc sid _ _, by simp⟩

/-- C5: once a `fatal_error` health event is recorded for a session, the
health policy denies reconnection forever — for any later events appended
to the log (until the log is discarded by removal) and at any time — and
the corruption-recovery path (`handleSessionCorruption` = record
`fatal_error`, then `removeSession`) never leaves the session in a state
where reconnection is recommended: afterwards either the session is gone
from the registry, or (when the removal's socket close threw) its health
log survives containing the fatal_error, so `shouldAttemptConnection` is
false. -/
theorem fatal_error_terminal :
    (∀ (log more : List HEvent) (now : Nat),
      (∃ e ∈ log, e.kind = HKind.fatal_error) →
      shouldAttemptConnection (log ++ more) now = false) ∧
    (∀ (st : MState) (sid : String) (t : Nat),
      lookupA sid (handleSessionCorruption st sid t).registry = none ∨
      (∃ l, lookupA sid (handleSessionCorruption st sid t).health = some l ∧
        ∀ now, shouldAttemptConnection l now = false)) := by
  constructor
  · intro log more now ⟨e, hm, hk⟩
    exact shouldAttempt_false_of_fatal _ now ⟨e, List.mem_append_left more hm, hk⟩
  · intro st sid t
    unfold handleSessionCorruption
    obtain ⟨lh, hlh, hmem⟩ := recordEvent_health st sid HKind.fatal_error t
    set st2 := recordEvent st sid HKind.fatal_error t with hst2
    unfold removeSession removeSessionTry
    cases hl : lookupA sid st2.registry with
    | none =>
      left
      dsimp only
      rw [(settle_removeSessionStep2 st2 sid).2.1]
      exact hl
    | some i =>
      dsimp only
      cases hf : st2.allSocks.find? (fun s => s.id = i) with
      | none =>
        left
        dsimp only
        rw [(settle_removeSessionStep2 _ sid).2.1]
        exact lookupA_eraseKey sid st2.registry
      | some sock =>
        dsimp only
        cases he : sock.endThrows with
        | true =>
          right
          simp only [if_true]
          exact ⟨lh, hlh, fun now =>
            shouldAttempt_false_of_fatal lh now ⟨HEvent.mk HKind.fatal_error t, hmem, rfl⟩⟩
        | false =>
          left
          simp only [Bool.false_eq_true, if_false]
          rw [(settle_removeSessionStep2 _ sid).2.1]
          exact lookupA_eraseKey sid st2.registry

/-- Witness for C5 at concrete inputs: a log with a recorded fatal_error
denies after further failures, and corruption recovery on the concrete
connected state leaves no registry entry. -/
theorem fatal_error_terminal_witness :
    shouldAttemptConnection
      ([HEvent.mk HKind.fatal_error 5] ++ [HEvent.mk HKind.failure 6]) 100 = false ∧
    (lookupA "A" (handleSessionCorruption stConn "A" 7).registry = none ∨
      (∃ l, lookupA "A" (handleSessionCorruption stConn "A" 7).health = some l ∧
        ∀ now, shouldAttemptConnection l now = false)) :=
  ⟨fatal_error_terminal.1 [HEvent.mk HKind.fatal_error 5] [HEvent.mk HKind.failure 6] 100
      ⟨HEvent.mk HKind.fatal_error 5, by simp, rfl⟩,
    fatal_error_terminal.2 stConn "A" 7⟩

end Wasel
